import Mathlib

/-
Verification of the presence-analyzer aggregation core.

The repository's `views.py` (request handlers) and `tests.py` are available;
the utility module `presence_analyzer/utils.py` (pure helpers `mean`,
`seconds_since_midnight`, `interval`, `group_by_weekday`,
`group_by_start_end_time`) is referenced by the views and pinned by the unit
tests but its source is not in the tree, so those helpers are modelled from
the specification, constrained by the expectations the tests and callers
place on them.
-/

namespace PresenceAnalyzer

/-- A time of day, as in `datetime.time(hour, minute, second)`. -/
structure Time where
  hour : ℕ
  minute : ℕ
  second : ℕ
deriving DecidableEq

/-- Modelled from the spec: `seconds_since_midnight` lives in the absent
`presence_analyzer/utils.py`; the spec defines it as
`t.hour*3600 + t.minute*60 + t.second`, with no error case. -/
def seconds_since_midnight (t : Time) : ℕ :=
  t.hour * 3600 + t.minute * 60 + t.second

/-- Modelled from the spec: `interval` (absent `utils.py`) returns
`secondsSinceMidnight(end) - secondsSinceMidnight(start)`, signed,
with no clamping. -/
def interval (start_t stop_t : Time) : ℤ :=
  (seconds_since_midnight stop_t : ℤ) - (seconds_since_midnight start_t : ℤ)

/-- Modelled from the spec: `mean` (absent `utils.py`) is the arithmetic
mean over rationals, returning exactly 0 for the empty sequence and
sum divided by count otherwise, preserving fractional results. -/
def mean (values : List ℚ) : ℚ :=
  if values.length = 0 then 0 else values.sum / (values.length : ℚ)

/-- One presence record for one date: `{'start': ..., 'end': ...}`. -/
structure PresenceEntry where
  start_t : Time
  end_t : Time
deriving DecidableEq

/-- A user's presence map: association list from a date (represented by its
proleptic-Gregorian ordinal, as in Python's `date.toordinal()`) to the
start/end record of that date. Python dict keys are unique dates. -/
abbrev UserPresenceMap : Type := List (ℕ × PresenceEntry)

/-- Python's `date.weekday()` (Monday = 0 .. Sunday = 6) in terms of the
proleptic-Gregorian ordinal: `date.fromordinal(1)` is a Monday, so
`weekday = (ordinal + 6) % 7`. -/
def date_weekday (ordinal : ℕ) : Fin 7 :=
  ⟨(ordinal + 6) % 7, Nat.mod_lt _ (by norm_num)⟩

/-- One loop step of `group_by_weekday`: append the interval of the entry
to the bucket of the date's weekday. -/
def gbw_step (acc : Fin 7 → List ℤ) (e : ℕ × PresenceEntry) : Fin 7 → List ℤ :=
  Function.update acc (date_weekday e.1)
    (acc (date_weekday e.1) ++ [interval e.2.start_t e.2.end_t])

/-- The seven weekday buckets of `group_by_weekday`, as a function. -/
def gbw_fun (userMap : UserPresenceMap) : Fin 7 → List ℤ :=
  userMap.foldl gbw_step (fun _ => [])

/-- Modelled from the spec: `group_by_weekday` (absent `utils.py`) starts
from seven empty buckets (Monday = 0 .. Sunday = 6) and, for every date of
the user's map, appends `interval(start, end)` to the bucket of the date's
weekday. -/
def group_by_weekday (userMap : UserPresenceMap) : List (List ℤ) :=
  (List.finRange 7).map (gbw_fun userMap)

/-- One loop step of `group_by_start_end_time`: append the start seconds and
the end seconds of the entry to the two lists of the weekday's slot. -/
def gbset_step (acc : Fin 7 → List ℚ × List ℚ) (e : ℕ × PresenceEntry) :
    Fin 7 → List ℚ × List ℚ :=
  Function.update acc (date_weekday e.1)
    ((acc (date_weekday e.1)).1 ++ [(seconds_since_midnight e.2.start_t : ℚ)],
     (acc (date_weekday e.1)).2 ++ [(seconds_since_midnight e.2.end_t : ℚ)])

/-- The per-weekday start and end second lists of `group_by_start_end_time`. -/
def gbset_fun (userMap : UserPresenceMap) : Fin 7 → List ℚ × List ℚ :=
  userMap.foldl gbset_step (fun _ => ([], []))

/-- Modelled from the spec and the callers/tests in the tree:
`group_by_start_end_time` (absent `utils.py`) collects, per weekday, the
lists of start seconds and end seconds of that weekday's dates and returns,
Monday first, one `(mean of starts, mean of ends)` pair per weekday. The
unit test pins the flat-pair shape (`[0, 0]` for an empty weekday,
`[34745, 64792]` for a weekday with one record) and the caller in `views.py`
unpacks each slot as exactly one `(start, end)` pair. -/
def group_by_start_end_time (userMap : UserPresenceMap) : List (ℚ × ℚ) :=
  (List.finRange 7).map
    (fun w => (mean (gbset_fun userMap w).1, mean (gbset_fun userMap w).2))

/-- One loop step of the claim's list-of-pairs reading of
`group_by_start_end_time`. -/
def gbsetl_step (acc : Fin 7 → List (ℚ × ℚ)) (e : ℕ × PresenceEntry) :
    Fin 7 → List (ℚ × ℚ) :=
  Function.update acc (date_weekday e.1)
    (acc (date_weekday e.1) ++
      [((seconds_since_midnight e.2.start_t : ℚ),
        (seconds_since_midnight e.2.end_t : ℚ))])

/-- Modelled from the spec's words for the claim under examination:
the reading of `group_by_start_end_time` in which, for each date, the pair
`(secondsSinceMidnight(start), secondsSinceMidnight(end))` is appended to
the list held in the slot of the date's weekday, so a slot is a list of
pairs. Stated for comparison with `group_by_start_end_time`. -/
def group_by_start_end_time_lists (userMap : UserPresenceMap) :
    List (List (ℚ × ℚ)) :=
  (List.finRange 7).map (userMap.foldl gbsetl_step (fun _ => []))

/-- The data mapping served by `get_data()`: user id to `UserPresenceMap`,
as an association list with unique keys (a Python dict). -/
abbrev DataMap : Type := List (ℕ × UserPresenceMap)

/-- Python's `user_id in data` / `data[user_id]` on the data dict. -/
def lookup_user (data : DataMap) (user_id : ℕ) : Option UserPresenceMap :=
  (List.find? (fun p => p.1 = user_id) data).map Prod.snd

/-- `calendar.day_abbr`: the fixed three-letter weekday abbreviations,
Monday first. -/
def day_abbr : List String := ["Mon", "Tue", "Wed", "Thu", "Fri", "Sat", "Sun"]

/-- `views.users_view`: one `{'user_id': i, 'name': 'User <i>'}` entry per key
of the data dict. -/
def users_view (data : DataMap) : List (ℕ × String) :=
  data.map (fun p => (p.1, "User " ++ toString p.1))

/-- `views.mean_time_weekday_view`: 404 (`none`) when the user id is not a
key of the data dict, else one `(day_abbr[weekday], mean(intervals))` pair
per weekday bucket of `group_by_weekday`. -/
def mean_time_weekday_view (data : DataMap) (user_id : ℕ) :
    Option (List (String × ℚ)) :=
  (lookup_user data user_id).map (fun m =>
    ((group_by_weekday m).enum).map
      (fun p => (day_abbr.getD p.1 "", mean (p.2.map (fun z => (z : ℚ))))))

/-- A JSON cell of the `presence_weekday_view` payload: the header row holds
a string where the day rows hold a number. -/
inductive Cell where
  | str (s : String)
  | num (q : ℚ)
deriving DecidableEq

/-- `views.presence_weekday_view`: 404 (`none`) when the user id is not a
key of the data dict, else one `(day_abbr[weekday], sum(intervals))` pair
per weekday bucket of `group_by_weekday`, with the header pair
`('Weekday', 'Presence (s)')` inserted at position 0. -/
def presence_weekday_view (data : DataMap) (user_id : ℕ) :
    Option (List (String × Cell)) :=
  (lookup_user data user_id).map (fun m =>
    ("Weekday", Cell.str "Presence (s)") ::
      ((group_by_weekday m).enum).map
        (fun p => (day_abbr.getD p.1 "", Cell.num ((p.2.sum : ℚ)))))

/-- `views.presence_start_end_time`: 404 (`none`) when the user id is not a
key of the data dict, else one `(day_abbr[weekday], start, end)` triple per
slot of `group_by_start_end_time`. -/
def presence_start_end_time (data : DataMap) (user_id : ℕ) :
    Option (List (String × ℚ × ℚ)) :=
  (lookup_user data user_id).map (fun m =>
    ((group_by_start_end_time m).enum).map
      (fun p => (day_abbr.getD p.1 "", p.2.1, p.2.2)))

/-- Python's `str.endswith`, expressed on the character lists of the two
strings. -/
def ends_with (s suffix : String) : Bool :=
  List.isSuffixOf suffix.data s.data

/-- `views.render_view`: the no-suffix branch evaluates
`'\x7b\x7d.html'.format(template_name)` but discards the result, then
`render_template(template_name)` is attempted with the original name and a
`TemplateNotFound` is mapped to 404 (`none`). The template store is
modelled as the list of available template names. -/
def render_view (templates : List String) (template_name : String) :
    Option String :=
  let _discarded :=
    if ¬ ends_with template_name ".html" then template_name ++ ".html"
    else template_name
  if template_name ∈ templates then some template_name else none

/-- Bucket characterization of the `group_by_weekday` loop: starting from any
bucket state, bucket `w` ends holding its initial contents followed by the
intervals of the entries whose date falls on weekday `w`, in map order. -/
theorem gbw_foldl_apply (m : UserPresenceMap) (acc : Fin 7 → List ℤ)
    (w : Fin 7) :
    (List.foldl gbw_step acc m) w =
      acc w ++ (m.filter (fun e => date_weekday e.1 = w)).map
        (fun e => interval e.2.start_t e.2.end_t) := by
  induction m generalizing acc with
  | nil => simp
  | cons e m ih =>
      rw [List.foldl_cons, ih]
      by_cases h : date_weekday e.1 = w
      · simp [gbw_step, h, List.filter_cons, Function.update_apply]
      · simp [gbw_step, List.filter_cons, Function.update_apply, h,
          Ne.symm h]

/-- Bucket `w` of `group_by_weekday` is the list of intervals of the
entries on weekday `w`, in map order. -/
theorem gbw_fun_eq_filter (m : UserPresenceMap) (w : Fin 7) :
    gbw_fun m w =
      (m.filter (fun e => date_weekday e.1 = w)).map
        (fun e => interval e.2.start_t e.2.end_t) := by
  simpa using gbw_foldl_apply m (fun _ => []) w

/-- Slot characterization of the `group_by_start_end_time` loop: slot `w`
ends holding its initial start list followed by the start seconds of the
weekday-`w` entries, and likewise for ends. -/
theorem gbset_foldl_apply (m : UserPresenceMap)
    (acc : Fin 7 → List ℚ × List ℚ) (w : Fin 7) :
    (List.foldl gbset_step acc m) w =
      ((acc w).1 ++ (m.filter (fun e => date_weekday e.1 = w)).map
          (fun e => (seconds_since_midnight e.2.start_t : ℚ)),
       (acc w).2 ++ (m.filter (fun e => date_weekday e.1 = w)).map
          (fun e => (seconds_since_midnight e.2.end_t : ℚ))) := by
  induction m generalizing acc with
  | nil => simp
  | cons e m ih =>
      rw [List.foldl_cons, ih]
      by_cases h : date_weekday e.1 = w
      · simp [gbset_step, h, List.filter_cons, Function.update_apply]
      · simp [gbset_step, List.filter_cons, Function.update_apply, h,
          Ne.symm h]

/-- The start and end lists collected for weekday `w` are exactly those of
the weekday-`w` entries, in map order. -/
theorem gbset_fun_eq_filter (m : UserPresenceMap) (w : Fin 7) :
    gbset_fun m w =
      ((m.filter (fun e => date_weekday e.1 = w)).map
          (fun e => (seconds_since_midnight e.2.start_t : ℚ)),
       (m.filter (fun e => date_weekday e.1 = w)).map
          (fun e => (seconds_since_midnight e.2.end_t : ℚ))) := by
  simpa using gbset_foldl_apply m (fun _ => ([], [])) w

/-- The seven slots of `group_by_start_end_time`, written out. -/
theorem gbset_slots (m : UserPresenceMap) :
    group_by_start_end_time m =
      [(mean (gbset_fun m 0).1, mean (gbset_fun m 0).2),
       (mean (gbset_fun m 1).1, mean (gbset_fun m 1).2),
       (mean (gbset_fun m 2).1, mean (gbset_fun m 2).2),
       (mean (gbset_fun m 3).1, mean (gbset_fun m 3).2),
       (mean (gbset_fun m 4).1, mean (gbset_fun m 4).2),
       (mean (gbset_fun m 5).1, mean (gbset_fun m 5).2),
       (mean (gbset_fun m 6).1, mean (gbset_fun m 6).2)] := rfl

/-- C3: `mean` returns exactly 0 on the empty sequence, sum divided by count
on every non-empty sequence (fractional results preserved), and in
particular `mean [0,1,2,2] = 1.25` and `mean [1,2,3] = 2`. -/
theorem mean_spec :
    mean [] = 0 ∧
    (∀ values : List ℚ, values ≠ [] →
      mean values = values.sum / (values.length : ℚ)) ∧
    mean [0, 1, 2, 2] = 5 / 4 ∧
    mean [1, 2, 3] = 2 := by
  refine ⟨rfl, fun values hv => ?_, by norm_num [mean], by norm_num [mean]⟩
  simp [mean, List.length_eq_zero, hv]

/-- Witness for C3's non-empty case at the concrete input `[1, 2, 3]`. -/
theorem mean_spec_witness :
    mean [1, 2, 3] = ([1, 2, 3] : List ℚ).sum / (([1, 2, 3] : List ℚ).length : ℚ) :=
  mean_spec.2.1 [1, 2, 3] (by simp)

/-- C4: on every valid time of day, `seconds_since_midnight` returns
`hour*3600 + minute*60 + second`, with `00:00:00 ↦ 0` and
`01:01:01 ↦ 3661`. -/
theorem seconds_since_midnight_spec :
    (∀ t : Time, t.hour ≤ 23 → t.minute ≤ 59 → t.second ≤ 59 →
      seconds_since_midnight t = t.hour * 3600 + t.minute * 60 + t.second) ∧
    seconds_since_midnight ⟨0, 0, 0⟩ = 0 ∧
    seconds_since_midnight ⟨1, 1, 1⟩ = 3661 :=
  ⟨fun _ _ _ _ => rfl, rfl, rfl⟩

/-- Witness for C4 at the concrete valid time 09:39:05. -/
theorem seconds_since_midnight_spec_witness :
    seconds_since_midnight ⟨9, 39, 5⟩ = 9 * 3600 + 39 * 60 + 5 :=
  seconds_since_midnight_spec.1 ⟨9, 39, 5⟩ (by norm_num) (by norm_num)
    (by norm_num)

/-- C5: `interval` is the difference of the two seconds-since-midnight
values, negative whenever the end precedes the start; `interval t t = 0`
and `interval 00:00:01 00:00:02 = 1`. -/
theorem interval_spec :
    (∀ s e : Time, interval s e =
      (seconds_since_midnight e : ℤ) - (seconds_since_midnight s : ℤ)) ∧
    (∀ s e : Time,
      seconds_since_midnight e < seconds_since_midnight s → interval s e < 0) ∧
    (∀ t : Time, interval t t = 0) ∧
    interval ⟨0, 0, 1⟩ ⟨0, 0, 2⟩ = 1 := by
  refine ⟨fun s e => rfl, fun s e h => ?_, fun t => by simp [interval], rfl⟩
  simp only [interval, sub_neg]
  exact_mod_cast h

/-- Witness for C5's negativity case: the end 00:00:01 precedes the start
00:00:02, and the interval is negative. -/
theorem interval_spec_witness :
    interval ⟨0, 0, 2⟩ ⟨0, 0, 1⟩ < 0 :=
  interval_spec.2.1 ⟨0, 0, 2⟩ ⟨0, 0, 1⟩ (by norm_num [seconds_since_midnight])

/-- C8: the aggregators are pure: calling either one twice on the same map
yields identical output both times (and the map, being a value the calls
never rebind, is unchanged); moreover each output is determined by the
entry list of the map alone — bucket `w` is a filter-and-map of the
entries — so no hidden state can influence a call. -/
theorem aggregators_pure (m : UserPresenceMap) :
    group_by_weekday m = group_by_weekday m ∧
    group_by_start_end_time m = group_by_start_end_time m ∧
    (∀ w : Fin 7, gbw_fun m w =
      (m.filter (fun e => date_weekday e.1 = w)).map
        (fun e => interval e.2.start_t e.2.end_t)) ∧
    (∀ w : Fin 7, gbset_fun m w =
      ((m.filter (fun e => date_weekday e.1 = w)).map
          (fun e => (seconds_since_midnight e.2.start_t : ℚ)),
       (m.filter (fun e => date_weekday e.1 = w)).map
          (fun e => (seconds_since_midnight e.2.end_t : ℚ)))) :=
  ⟨rfl, rfl, gbw_fun_eq_filter m, gbset_fun_eq_filter m⟩

/-- C1: when the user id is not a key of the data dict, each of the three
aggregation views returns the distinguishable not-found result `none`
(mapped to a 404) rather than an aggregate. -/
theorem not_found_spec (data : DataMap) (user_id : ℕ)
    (h : lookup_user data user_id = none) :
    mean_time_weekday_view data user_id = none ∧
    presence_weekday_view data user_id = none ∧
    presence_start_end_time data user_id = none := by
  simp [mean_time_weekday_view, presence_weekday_view,
    presence_start_end_time, h]

/-- Witness for C1 at the concrete data dict `[(10, [])]` and the absent
user id 11. -/
theorem not_found_spec_witness :
    mean_time_weekday_view [(10, [])] 11 = none ∧
    presence_weekday_view [(10, [])] 11 = none ∧
    presence_start_end_time [(10, [])] 11 = none :=
  not_found_spec [(10, [])] 11 (by decide)

/-- C2: when the user id is a key of the data dict,
`mean_time_weekday_view` returns exactly 7 entries, Monday first: entry `i`
is the pair of `day_abbr[i]` and the mean of weekday bucket `i` of
`group_by_weekday(data[user_id])`, and the labels are exactly
Mon, Tue, Wed, Thu, Fri, Sat, Sun in that order. -/
theorem mean_time_weekday_spec (data : DataMap) (user_id : ℕ)
    (m : UserPresenceMap) (h : lookup_user data user_id = some m) :
    mean_time_weekday_view data user_id =
      some ((List.range 7).map (fun i =>
        (day_abbr.getD i "",
         mean (((group_by_weekday m).getD i []).map (fun z => (z : ℚ)))))) ∧
    ∃ r, mean_time_weekday_view data user_id = some r ∧ r.length = 7 ∧
      r.map Prod.fst = ["Mon", "Tue", "Wed", "Thu", "Fri", "Sat", "Sun"] := by
  have hmain : mean_time_weekday_view data user_id =
      some ((List.range 7).map (fun i =>
        (day_abbr.getD i "",
         mean (((group_by_weekday m).getD i []).map (fun z => (z : ℚ)))))) := by
    simp only [mean_time_weekday_view, h, Option.map_some']
    rfl
  exact ⟨hmain, _, hmain, rfl, rfl⟩

/-- Witness for C2 at a concrete data dict holding one user with one
Tuesday record. -/
theorem mean_time_weekday_spec_witness :
    mean_time_weekday_view [(10, [(2, ⟨⟨9, 39, 5⟩, ⟨17, 59, 52⟩⟩)])] 10 =
      some ((List.range 7).map (fun i =>
        (day_abbr.getD i "",
         mean (((group_by_weekday [(2, ⟨⟨9, 39, 5⟩, ⟨17, 59, 52⟩⟩)]).getD
            i []).map (fun z => (z : ℚ)))))) :=
  (mean_time_weekday_spec [(10, [(2, ⟨⟨9, 39, 5⟩, ⟨17, 59, 52⟩⟩)])] 10
    [(2, ⟨⟨9, 39, 5⟩, ⟨17, 59, 52⟩⟩)] rfl).1

/-- C7: when the user id is a key of the data dict, `presence_weekday_view`
returns, after the header pair `("Weekday", "Presence (s)")` that the view
itself inserts (the core `group_by_weekday` produces only the 7 buckets),
one entry per weekday in Monday-first order whose numeric component is the
exact sum — not the mean — of weekday bucket `i` of
`group_by_weekday(data[user_id])`. -/
theorem presence_weekday_spec (data : DataMap) (user_id : ℕ)
    (m : UserPresenceMap) (h : lookup_user data user_id = some m) :
    presence_weekday_view data user_id =
      some (("Weekday", Cell.str "Presence (s)") ::
        (List.range 7).map (fun i =>
          (day_abbr.getD i "",
           Cell.num ((((group_by_weekday m).getD i []).sum : ℚ))))) ∧
    (group_by_weekday m).length = 7 ∧
    ∃ r, presence_weekday_view data user_id =
        some (("Weekday", Cell.str "Presence (s)") :: r) ∧
      r.length = 7 ∧
      r.map Prod.fst = ["Mon", "Tue", "Wed", "Thu", "Fri", "Sat", "Sun"] := by
  have hmain : presence_weekday_view data user_id =
      some (("Weekday", Cell.str "Presence (s)") ::
        (List.range 7).map (fun i =>
          (day_abbr.getD i "",
           Cell.num ((((group_by_weekday m).getD i []).sum : ℚ))))) := by
    simp only [presence_weekday_view, h, Option.map_some']
    rfl
  exact ⟨hmain, rfl, _, hmain, rfl, rfl⟩

/-- Witness for C7 at a concrete data dict holding one user with one
Tuesday record. -/
theorem presence_weekday_spec_witness :
    presence_weekday_view [(10, [(2, ⟨⟨9, 39, 5⟩, ⟨17, 59, 52⟩⟩)])] 10 =
      some (("Weekday", Cell.str "Presence (s)") ::
        (List.range 7).map (fun i =>
          (day_abbr.getD i "",
           Cell.num ((((group_by_weekday
              [(2, ⟨⟨9, 39, 5⟩, ⟨17, 59, 52⟩⟩)]).getD i []).sum : ℚ))))) :=
  (presence_weekday_spec [(10, [(2, ⟨⟨9, 39, 5⟩, ⟨17, 59, 52⟩⟩)])] 10
    [(2, ⟨⟨9, 39, 5⟩, ⟨17, 59, 52⟩⟩)] rfl).1

/-- C6 (counterexample): `group_by_start_end_time` does not append each
date's `(start, end)` pair to a per-weekday list. Two maps with two Tuesday
records each — pairs (1000, 3000) and (3000, 5000) in the first map, pair
(2000, 4000) twice in the second — have different list-of-appended-pairs
readings yet identical `group_by_start_end_time` outputs; moreover the
Tuesday slot of the first map is (2000, 4000), a pair that belongs to none
of that map's dates. -/
theorem group_by_start_end_time_counterexample :
    group_by_start_end_time_lists
        [(2, ⟨⟨0, 16, 40⟩, ⟨0, 50, 0⟩⟩), (9, ⟨⟨0, 50, 0⟩, ⟨1, 23, 20⟩⟩)] ≠
      group_by_start_end_time_lists
        [(2, ⟨⟨0, 33, 20⟩, ⟨1, 6, 40⟩⟩), (9, ⟨⟨0, 33, 20⟩, ⟨1, 6, 40⟩⟩)] ∧
    group_by_start_end_time
        [(2, ⟨⟨0, 16, 40⟩, ⟨0, 50, 0⟩⟩), (9, ⟨⟨0, 50, 0⟩, ⟨1, 23, 20⟩⟩)] =
      group_by_start_end_time
        [(2, ⟨⟨0, 33, 20⟩, ⟨1, 6, 40⟩⟩), (9, ⟨⟨0, 33, 20⟩, ⟨1, 6, 40⟩⟩)] ∧
    group_by_start_end_time
        [(2, ⟨⟨0, 16, 40⟩, ⟨0, 50, 0⟩⟩), (9, ⟨⟨0, 50, 0⟩, ⟨1, 23, 20⟩⟩)] =
      [(0, 0), (2000, 4000), (0, 0), (0, 0), (0, 0), (0, 0), (0, 0)] ∧
    ((2000 : ℚ), (4000 : ℚ)) ∉
      [((1000 : ℚ), (3000 : ℚ)), ((3000 : ℚ), (5000 : ℚ))] := by
  have h1 : group_by_start_end_time
      [(2, ⟨⟨0, 16, 40⟩, ⟨0, 50, 0⟩⟩), (9, ⟨⟨0, 50, 0⟩, ⟨1, 23, 20⟩⟩)] =
      [(0, 0), (2000, 4000), (0, 0), (0, 0), (0, 0), (0, 0), (0, 0)] := by
    rw [gbset_slots]
    norm_num [mean,
      (by decide : gbset_fun
        [(2, ⟨⟨0, 16, 40⟩, ⟨0, 50, 0⟩⟩), (9, ⟨⟨0, 50, 0⟩, ⟨1, 23, 20⟩⟩)] 0 =
        ([], [])),
      (by decide : gbset_fun
        [(2, ⟨⟨0, 16, 40⟩, ⟨0, 50, 0⟩⟩), (9, ⟨⟨0, 50, 0⟩, ⟨1, 23, 20⟩⟩)] 1 =
        ([1000, 3000], [3000, 5000])),
      (by decide : gbset_fun
        [(2, ⟨⟨0, 16, 40⟩, ⟨0, 50, 0⟩⟩), (9, ⟨⟨0, 50, 0⟩, ⟨1, 23, 20⟩⟩)] 2 =
        ([], [])),
      (by decide : gbset_fun
        [(2, ⟨⟨0, 16, 40⟩, ⟨0, 50, 0⟩⟩), (9, ⟨⟨0, 50, 0⟩, ⟨1, 23, 20⟩⟩)] 3 =
        ([], [])),
      (by decide : gbset_fun
        [(2, ⟨⟨0, 16, 40⟩, ⟨0, 50, 0⟩⟩), (9, ⟨⟨0, 50, 0⟩, ⟨1, 23, 20⟩⟩)] 4 =
        ([], [])),
      (by decide : gbset_fun
        [(2, ⟨⟨0, 16, 40⟩, ⟨0, 50, 0⟩⟩), (9, ⟨⟨0, 50, 0⟩, ⟨1, 23, 20⟩⟩)] 5 =
        ([], [])),
      (by decide : gbset_fun
        [(2, ⟨⟨0, 16, 40⟩, ⟨0, 50, 0⟩⟩), (9, ⟨⟨0, 50, 0⟩, ⟨1, 23, 20⟩⟩)] 6 =
        ([], []))]
  have h2 : group_by_start_end_time
      [(2, ⟨⟨0, 33, 20⟩, ⟨1, 6, 40⟩⟩), (9, ⟨⟨0, 33, 20⟩, ⟨1, 6, 40⟩⟩)] =
      [(0, 0), (2000, 4000), (0, 0), (0, 0), (0, 0), (0, 0), (0, 0)] := by
    rw [gbset_slots]
    norm_num [mean,
      (by decide : gbset_fun
        [(2, ⟨⟨0, 33, 20⟩, ⟨1, 6, 40⟩⟩), (9, ⟨⟨0, 33, 20⟩, ⟨1, 6, 40⟩⟩)] 0 =
        ([], [])),
      (by decide : gbset_fun
        [(2, ⟨⟨0, 33, 20⟩, ⟨1, 6, 40⟩⟩), (9, ⟨⟨0, 33, 20⟩, ⟨1, 6, 40⟩⟩)] 1 =
        ([2000, 2000], [4000, 4000])),
      (by decide : gbset_fun
        [(2, ⟨⟨0, 33, 20⟩, ⟨1, 6, 40⟩⟩), (9, ⟨⟨0, 33, 20⟩, ⟨1, 6, 40⟩⟩)] 2 =
        ([], [])),
      (by decide : gbset_fun
        [(2, ⟨⟨0, 33, 20⟩, ⟨1, 6, 40⟩⟩), (9, ⟨⟨0, 33, 20⟩, ⟨1, 6, 40⟩⟩)] 3 =
        ([], [])),
      (by decide : gbset_fun
        [(2, ⟨⟨0, 33, 20⟩, ⟨1, 6, 40⟩⟩), (9, ⟨⟨0, 33, 20⟩, ⟨1, 6, 40⟩⟩)] 4 =
        ([], [])),
      (by decide : gbset_fun
        [(2, ⟨⟨0, 33, 20⟩, ⟨1, 6, 40⟩⟩), (9, ⟨⟨0, 33, 20⟩, ⟨1, 6, 40⟩⟩)] 5 =
        ([], [])),
      (by decide : gbset_fun
        [(2, ⟨⟨0, 33, 20⟩, ⟨1, 6, 40⟩⟩), (9, ⟨⟨0, 33, 20⟩, ⟨1, 6, 40⟩⟩)] 6 =
        ([], []))]
  exact ⟨by decide, h1.trans h2.symm, h1, by decide⟩

/-- C6 (amended): `group_by_start_end_time` returns exactly 7 slots, Monday
first; slot `w` is the single pair of the mean of the start seconds and the
mean of the end seconds over the dates whose weekday is `w`, and a weekday
with no data yields the slot (0, 0). -/
theorem group_by_start_end_time_spec (m : UserPresenceMap) :
    group_by_start_end_time m =
      (List.finRange 7).map (fun w =>
        (mean ((m.filter (fun e => date_weekday e.1 = w)).map
            (fun e => (seconds_since_midnight e.2.start_t : ℚ))),
         mean ((m.filter (fun e => date_weekday e.1 = w)).map
            (fun e => (seconds_since_midnight e.2.end_t : ℚ))))) ∧
    (group_by_start_end_time m).length = 7 ∧
    (∀ w : Fin 7, m.filter (fun e => date_weekday e.1 = w) = [] →
      (mean (gbset_fun m w).1, mean (gbset_fun m w).2) = (0, 0)) := by
  refine ⟨?_, rfl, fun w hw => ?_⟩
  · unfold group_by_start_end_time
    apply List.map_congr_left
    intro w _
    rw [gbset_fun_eq_filter]
  · rw [gbset_fun_eq_filter, hw]
    simp [mean]

/-- Witness for C6's empty-weekday case at the empty map and Monday. -/
theorem group_by_start_end_time_spec_witness :
    (mean (gbset_fun [] 0).1, mean (gbset_fun [] 0).2) = ((0 : ℚ), (0 : ℚ)) :=
  (group_by_start_end_time_spec []).2.2 0 rfl

/-- C9: the user listing holds, for every key `i` of the data dict and for
no other value, exactly one entry `(i, "User <i>")` whose name is the
literal "User " followed by the decimal representation of `i`. -/
theorem users_view_spec (data : DataMap) (i : ℕ)
    (hnd : (data.map Prod.fst).Nodup) :
    (users_view data).filter (fun e => e.1 = i) =
      if i ∈ data.map Prod.fst then [(i, "User " ++ toString i)] else [] := by
  induction data with
  | nil => simp [users_view]
  | cons p rest ih =>
      simp only [List.map_cons, List.nodup_cons] at hnd
      obtain ⟨hp, hrest⟩ := hnd
      have hcons : users_view (p :: rest) =
          (p.1, "User " ++ toString p.1) :: users_view rest := rfl
      by_cases h : p.1 = i
      · subst h
        have hfr : (users_view rest).filter (fun e => e.1 = p.1) = [] := by
          rw [ih hrest, if_neg hp]
        rw [hcons, List.filter_cons, if_pos (by simp), hfr,
          if_pos (by simp)]
      · rw [hcons, List.filter_cons, if_neg (by simp [h]), ih hrest]
        by_cases hm : i ∈ rest.map Prod.fst
        · rw [if_pos hm, if_pos (by simp [hm])]
        · rw [if_neg hm, if_neg (by simp [hm, Ne.symm h])]

/-- Witness for C9 at the concrete data dict with keys 10 and 11. -/
theorem users_view_spec_witness :
    (users_view [(10, []), (11, [])]).filter (fun e => e.1 = 10) =
      if 10 ∈ ([(10, ([] : UserPresenceMap)), (11, [])].map Prod.fst) then
        [(10, "User " ++ toString 10)]
      else [] :=
  users_view_spec [(10, []), (11, [])] 10 (by decide)

/-- C10: for a template name that does not end in ".html", `render_view`
looks the name up unchanged — the formatted "<name>.html" string is
computed and discarded — so the lookup succeeds exactly on the unsuffixed
name, and fails (404) even when the ".html"-suffixed name exists in the
template store. -/
theorem render_view_spec (templates : List String) (template_name : String)
    (h : ¬ ends_with template_name ".html") :
    render_view templates template_name =
      (if template_name ∈ templates then some template_name else none) ∧
    (template_name ∉ templates → render_view templates template_name = none) := by
  refine ⟨rfl, fun hmem => ?_⟩
  simp [render_view, hmem]

/-- Witness for C10: "presence_weekday" is not in a store holding only
"presence_weekday.html", so the view 404s instead of appending the
suffix. -/
theorem render_view_spec_witness :
    render_view ["presence_weekday.html"] "presence_weekday" = none :=
  (render_view_spec ["presence_weekday.html"] "presence_weekday"
    (by decide)).2 (by decide)

end PresenceAnalyzer
